import Mathlib

/-!
Verification of the galaxy point generator (`generateGalaxy` in `src/script.js`).

The generator is embedded shallowly over exact real arithmetic: the
pseudo-random source (`Math.random()`) is injected as a stream `u : ℕ → ℝ`
together with a cursor that advances by one for every draw the program makes,
in program order.  Machine floats become real numbers, `Math.cos`/`Math.sin`/
`Math.pow` become `Real.cos`/`Real.sin`/`Real.rpow`, and the two parallel
`Float32Array(count * 3)` buffers become two parallel lists of triples.
-/

namespace Galaxy

/-- The shape enum of the configuration object (`parameters.shape`). The
generation loop itself never reads this field. -/
inductive Shape
  | spiral
  | elliptical
  | irregular
deriving DecidableEq

/-- An RGB color (`THREE.Color`), components as real numbers. -/
structure Color where
  r : ℝ
  g : ℝ
  b : ℝ

/-- `THREE.Color.lerp`: componentwise `this += (other - this) * alpha`. -/
def Color.lerp (c₁ c₂ : Color) (t : ℝ) : Color :=
  ⟨c₁.r + (c₂.r - c₁.r) * t, c₁.g + (c₂.g - c₁.g) * t, c₁.b + (c₂.b - c₁.b) * t⟩

/-- `THREE.Color.multiplyScalar`: componentwise scaling. -/
def Color.multiplyScalar (c : Color) (s : ℝ) : Color :=
  ⟨c.r * s, c.g * s, c.b * s⟩

/-- The `parameters` record of the source (the fields the generator and its
decorations read; GUI-only callbacks are omitted). -/
structure GalaxyConfig where
  count : ℕ
  size : ℝ
  radius : ℝ
  branches : ℕ
  spin : ℝ
  randomness : ℝ
  randomnessPower : ℝ
  insideColor : Color
  outsideColor : Color
  shape : Shape
  armWidth : ℝ
  coreSize : ℝ
  dustLanes : Bool
  centralBlackHole : Bool
  bulge : Bool
  halo : Bool

/-- `branchAngle = ((i % branches) / branches) * Math.PI * 2`. -/
noncomputable def branchAngle (p : GalaxyConfig) (i : ℕ) : ℝ :=
  (((i % p.branches : ℕ) : ℝ) / (p.branches : ℝ)) * Real.pi * 2

/-- The spiral base placement:
`x = cos(branchAngle + spinAngle) * radius`, `y = 0`,
`z = sin(branchAngle + spinAngle) * radius` with `spinAngle = radius * spin`. -/
noncomputable def spiralPos (p : GalaxyConfig) (i : ℕ) (radius : ℝ) : ℝ × ℝ × ℝ :=
  (Real.cos (branchAngle p i + radius * p.spin) * radius,
   0,
   Real.sin (branchAngle p i + radius * p.spin) * radius)

/-- The arm-width jitter: `armWidth = parameters.armWidth * (1 - radius / R)`;
`x += (random() - 0.5) * armWidth; z += (random() - 0.5) * armWidth`.
Consumes the draws at `k` (for x) and `k+1` (for z). -/
noncomputable def armJitter (p : GalaxyConfig) (u : ℕ → ℝ) (k : ℕ) (radius : ℝ)
    (pos : ℝ × ℝ × ℝ) : ℝ × ℝ × ℝ :=
  (pos.1 + (u k - 0.5) * (p.armWidth * (1 - radius / p.radius)),
   pos.2.1,
   pos.2.2 + (u (k + 1) - 0.5) * (p.armWidth * (1 - radius / p.radius)))

/-- The relocated bulge point: `bulgeRadius = random() * R * 0.2` (draw `k`),
`bulgeAngle = random() * 2π` (draw `k+1`), `x = cos(bulgeAngle) * bulgeRadius`,
`z = sin(bulgeAngle) * bulgeRadius`, `y = (random() - 0.5) * bulgeRadius * 0.5`
(draw `k+2`). -/
noncomputable def bulgePoint (p : GalaxyConfig) (u : ℕ → ℝ) (k : ℕ) : ℝ × ℝ × ℝ :=
  (Real.cos (u (k + 1) * Real.pi * 2) * (u k * p.radius * 0.2),
   (u (k + 2) - 0.5) * (u k * p.radius * 0.2) * 0.5,
   Real.sin (u (k + 1) * Real.pi * 2) * (u k * p.radius * 0.2))

/-- `if (parameters.bulge && Math.random() < 0.1) { ... }`: when the flag is
set the condition draw at `k` is consumed; when it fires the three bulge draws
follow.  Returns the (possibly relocated) position and the new cursor. -/
noncomputable def bulgeStep (p : GalaxyConfig) (u : ℕ → ℝ) (k : ℕ)
    (pos : ℝ × ℝ × ℝ) : (ℝ × ℝ × ℝ) × ℕ :=
  if p.bulge then
    if u k < 0.1 then (bulgePoint p u (k + 1), k + 4) else (pos, k + 1)
  else (pos, k)

/-- The relocated halo point: `haloRadius = random() * R * 1.5` (draw `k`),
two angle draws at `k+1` and `k+2`,
`x = sin(a1) * cos(a2) * haloRadius`, `y = sin(a1) * sin(a2) * haloRadius`,
`z = cos(a1) * haloRadius`. -/
noncomputable def haloPoint (p : GalaxyConfig) (u : ℕ → ℝ) (k : ℕ) : ℝ × ℝ × ℝ :=
  (Real.sin (u (k + 1) * Real.pi * 2) * Real.cos (u (k + 2) * Real.pi * 2) *
     (u k * p.radius * 1.5),
   Real.sin (u (k + 1) * Real.pi * 2) * Real.sin (u (k + 2) * Real.pi * 2) *
     (u k * p.radius * 1.5),
   Real.cos (u (k + 1) * Real.pi * 2) * (u k * p.radius * 1.5))

/-- `if (parameters.halo && Math.random() < 0.05) { ... }`, analogous to
`bulgeStep` and evaluated after it. -/
noncomputable def haloStep (p : GalaxyConfig) (u : ℕ → ℝ) (k : ℕ)
    (pos : ℝ × ℝ × ℝ) : (ℝ × ℝ × ℝ) × ℕ :=
  if p.halo then
    if u k < 0.05 then (haloPoint p u (k + 1), k + 4) else (pos, k + 1)
  else (pos, k)

/-- One randomness delta for one axis:
`pow(random(), randomnessPower) * (random() < 0.5 ? 1 : -1) * randomness * radius`,
consuming the power draw at `k` and the sign draw at `k+1`. -/
noncomputable def randomDelta (p : GalaxyConfig) (u : ℕ → ℝ) (k : ℕ) (radius : ℝ) : ℝ :=
  Real.rpow (u k) p.randomnessPower * (if u (k + 1) < 0.5 then 1 else -1) *
    p.randomness * radius

/-- The interpolated color before any dust-lane darkening:
`colorInside.clone().lerp(colorOutside, radius / parameters.radius)`. -/
noncomputable def preDustColor (p : GalaxyConfig) (radius : ℝ) : Color :=
  Color.lerp p.insideColor p.outsideColor (radius / p.radius)

/-- `dustLane = sin(branchAngle * branches) * 0.5 + 0.5`. -/
noncomputable def dustLaneFactor (p : GalaxyConfig) (i : ℕ) : ℝ :=
  Real.sin (branchAngle p i * (p.branches : ℝ)) * 0.5 + 0.5

/-- The emitted color of particle `i`: the interpolated color, darkened by
`multiplyScalar(1 - dustLane * 0.3)` when `dustLanes` is set. -/
noncomputable def particleColor (p : GalaxyConfig) (i : ℕ) (radius : ℝ) : Color :=
  if p.dustLanes then
    (preDustColor p radius).multiplyScalar (1 - dustLaneFactor p i * 0.3)
  else preDustColor p radius

/-- The position of particle `i` after base placement, arm jitter, bulge and
halo overrides — i.e. just before the randomness perturbation — together with
the cursor after those stages.  The radius draw sits at `k`, the two arm
jitter draws at `k+1`, `k+2`, and the conditional stages follow. -/
noncomputable def preRandomPos (p : GalaxyConfig) (u : ℕ → ℝ) (k i : ℕ) :
    (ℝ × ℝ × ℝ) × ℕ :=
  let b := bulgeStep p u (k + 3)
    (armJitter p u (k + 1) (u k * p.radius) (spiralPos p i (u k * p.radius)))
  haloStep p u b.2 b.1

/-- One iteration of the generation loop for particle index `i` with the
random cursor at `k`: the emitted position, the emitted color, and the cursor
for the next particle (six randomness draws follow the pre-randomness
stages). -/
noncomputable def genParticle (p : GalaxyConfig) (u : ℕ → ℝ) (k i : ℕ) :
    (ℝ × ℝ × ℝ) × Color × ℕ :=
  ((((preRandomPos p u k i).1).1 + randomDelta p u (preRandomPos p u k i).2 (u k * p.radius),
    (((preRandomPos p u k i).1).2).1 +
      randomDelta p u ((preRandomPos p u k i).2 + 2) (u k * p.radius),
    (((preRandomPos p u k i).1).2).2 +
      randomDelta p u ((preRandomPos p u k i).2 + 4) (u k * p.radius)),
   particleColor p i (u k * p.radius),
   (preRandomPos p u k i).2 + 6)

/-- The generation loop from particle index `i` with cursor `k`, for `n`
remaining particles. -/
noncomputable def genFrom (p : GalaxyConfig) (u : ℕ → ℝ) :
    ℕ → ℕ → ℕ → List ((ℝ × ℝ × ℝ) × Color)
  | _, _, 0 => []
  | i, k, n + 1 =>
    ((genParticle p u k i).1, (genParticle p u k i).2.1) ::
      genFrom p u (i + 1) (genParticle p u k i).2.2 n

/-- `generateGalaxy`: the two parallel output buffers (positions, colors),
one triple per particle, particles `0, …, count - 1` in order, drawing from
the injected random stream `u` starting at cursor `0`. -/
noncomputable def generateGalaxy (p : GalaxyConfig) (u : ℕ → ℝ) :
    List (ℝ × ℝ × ℝ) × List Color :=
  ((genFrom p u 0 0 p.count).map Prod.fst, (genFrom p u 0 0 p.count).map Prod.snd)

theorem genFrom_zero (p : GalaxyConfig) (u : ℕ → ℝ) (i k : ℕ) :
    genFrom p u i k 0 = [] := rfl

theorem genFrom_succ (p : GalaxyConfig) (u : ℕ → ℝ) (i k n : ℕ) :
    genFrom p u i k (n + 1) =
      ((genParticle p u k i).1, (genParticle p u k i).2.1) ::
        genFrom p u (i + 1) (genParticle p u k i).2.2 n := rfl

theorem genFrom_length (p : GalaxyConfig) (u : ℕ → ℝ) :
    ∀ n i k, (genFrom p u i k n).length = n := by
  intro n
  induction n with
  | zero => intro i k; rfl
  | succ m ih =>
    intro i k
    rw [genFrom_succ, List.length_cons, ih]

/-- C1: for every config (count is a natural number, so `count ≥ 0` always),
generation produces a positions buffer and a colors buffer whose lengths both
equal `config.count`; in particular `count = 0` yields two empty buffers. -/
theorem C1_buffer_lengths (p : GalaxyConfig) (u : ℕ → ℝ) :
    (generateGalaxy p u).1.length = p.count ∧
      (generateGalaxy p u).2.length = p.count := by
  constructor
  · simp [generateGalaxy, genFrom_length]
  · simp [generateGalaxy, genFrom_length]

theorem bulgeStep_skip (p : GalaxyConfig) (u : ℕ → ℝ) (k : ℕ) (pos : ℝ × ℝ × ℝ)
    (hb : p.bulge = false) : bulgeStep p u k pos = (pos, k) := by
  simp [bulgeStep, hb]

theorem haloStep_skip (p : GalaxyConfig) (u : ℕ → ℝ) (k : ℕ) (pos : ℝ × ℝ × ℝ)
    (hh : p.halo = false) : haloStep p u k pos = (pos, k) := by
  simp [haloStep, hh]

theorem preRandomPos_clean (p : GalaxyConfig) (u : ℕ → ℝ) (k i : ℕ)
    (harm : p.armWidth = 0) (hb : p.bulge = false) (hh : p.halo = false) :
    preRandomPos p u k i = (spiralPos p i (u k * p.radius), k + 3) := by
  simp [preRandomPos, bulgeStep_skip p u _ _ hb, haloStep_skip p u _ _ hh,
    armJitter, harm, spiralPos]

theorem genParticle_cursor (p : GalaxyConfig) (u : ℕ → ℝ) (k i : ℕ)
    (hb : p.bulge = false) (hh : p.halo = false) :
    (genParticle p u k i).2.2 = k + 9 := by
  have h : (preRandomPos p u k i).2 = k + 3 := by
    simp [preRandomPos, bulgeStep_skip p u _ _ hb, haloStep_skip p u _ _ hh]
  simp [genParticle, h]

theorem genParticle_clean_pos (p : GalaxyConfig) (u : ℕ → ℝ) (k i : ℕ)
    (hrand : p.randomness = 0) (harm : p.armWidth = 0)
    (hb : p.bulge = false) (hh : p.halo = false) :
    (genParticle p u k i).1 = spiralPos p i (u k * p.radius) := by
  simp [genParticle, preRandomPos_clean p u k i harm hb hh, randomDelta, hrand,
    spiralPos]

theorem genFrom_getElem (p : GalaxyConfig) (u : ℕ → ℝ)
    (hb : p.bulge = false) (hh : p.halo = false) :
    ∀ n j i k, j < n →
      (genFrom p u i k n)[j]? =
        some ((genParticle p u (k + 9 * j) (i + j)).1,
              (genParticle p u (k + 9 * j) (i + j)).2.1) := by
  intro n
  induction n with
  | zero => intro j i k hj; exact absurd hj (by omega)
  | succ m ih =>
    intro j i k hj
    cases j with
    | zero =>
      rw [genFrom_succ, List.getElem?_cons_zero]
      simp
    | succ j =>
      rw [genFrom_succ, List.getElem?_cons_succ,
        ih j (i + 1) ((genParticle p u k i).2.2) (by omega),
        genParticle_cursor p u k i hb hh]
      have e1 : k + 9 + 9 * j = k + 9 * (j + 1) := by ring
      have e2 : i + 1 + j = i + (j + 1) := by omega
      rw [e1, e2]

/-- C2: for a spiral config with `randomness = 0`, `bulge = false`,
`halo = false`, `armWidth = 0`, particle `i` is emitted exactly at the base
spiral placement computed from its radius draw `u (9 i)` (nine draws are
consumed per particle here): `x = cos(branchAngle + spinAngle) * radius`,
`y = 0`, `z = sin(branchAngle + spinAngle) * radius` with
`radius = u (9 i) * R` and `spinAngle = radius * spin`; its XZ distance from
the origin equals that radius, which is at most `R`. -/
theorem C2_spiral_placement (p : GalaxyConfig) (u : ℕ → ℝ)
    (_hshape : p.shape = Shape.spiral)
    (hrand : p.randomness = 0) (harm : p.armWidth = 0)
    (hb : p.bulge = false) (hh : p.halo = false)
    (hR : 0 ≤ p.radius) (i : ℕ) (hi : i < p.count)
    (h0 : 0 ≤ u (9 * i)) (h1 : u (9 * i) ≤ 1) :
    (generateGalaxy p u).1[i]? = some (spiralPos p i (u (9 * i) * p.radius)) ∧
    spiralPos p i (u (9 * i) * p.radius) =
      (Real.cos (branchAngle p i + u (9 * i) * p.radius * p.spin) *
         (u (9 * i) * p.radius),
       0,
       Real.sin (branchAngle p i + u (9 * i) * p.radius * p.spin) *
         (u (9 * i) * p.radius)) ∧
    Real.sqrt ((spiralPos p i (u (9 * i) * p.radius)).1 ^ 2 +
        ((spiralPos p i (u (9 * i) * p.radius)).2).2 ^ 2) = u (9 * i) * p.radius ∧
    u (9 * i) * p.radius ≤ p.radius := by
  have hr0 : 0 ≤ u (9 * i) * p.radius := mul_nonneg h0 hR
  refine ⟨?_, rfl, ?_, mul_le_of_le_one_left hR h1⟩
  · have hx := genFrom_getElem p u hb hh p.count i 0 0 hi
    have hpos : (generateGalaxy p u).1[i]? = some ((genParticle p u (9 * i) i).1) := by
      simp only [generateGalaxy, List.getElem?_map, hx, Nat.zero_add, Option.map_some']
    rw [hpos, genParticle_clean_pos p u (9 * i) i hrand harm hb hh]
  · simp only [spiralPos]
    have h := Real.sin_sq_add_cos_sq (branchAngle p i + u (9 * i) * p.radius * p.spin)
    have key : (Real.cos (branchAngle p i + u (9 * i) * p.radius * p.spin) *
          (u (9 * i) * p.radius)) ^ 2 +
        (Real.sin (branchAngle p i + u (9 * i) * p.radius * p.spin) *
          (u (9 * i) * p.radius)) ^ 2 = (u (9 * i) * p.radius) ^ 2 := by
      calc (Real.cos (branchAngle p i + u (9 * i) * p.radius * p.spin) *
              (u (9 * i) * p.radius)) ^ 2 +
            (Real.sin (branchAngle p i + u (9 * i) * p.radius * p.spin) *
              (u (9 * i) * p.radius)) ^ 2
          = (Real.sin (branchAngle p i + u (9 * i) * p.radius * p.spin) ^ 2 +
              Real.cos (branchAngle p i + u (9 * i) * p.radius * p.spin) ^ 2) *
              (u (9 * i) * p.radius) ^ 2 := by ring
        _ = 1 * (u (9 * i) * p.radius) ^ 2 := by rw [h]
        _ = (u (9 * i) * p.radius) ^ 2 := one_mul _
    rw [key, Real.sqrt_sq hr0]

/-- The end-to-end scenario configuration of the spec:
`{count:1000, radius:5, branches:3, spin:1, randomness:0, shape:"spiral",
armWidth:0, bulge:false, halo:false, dustLanes:false}`. -/
noncomputable def cfgW : GalaxyConfig :=
  { count := 1000, size := 0.005, radius := 5, branches := 3, spin := 1,
    randomness := 0, randomnessPower := 3,
    insideColor := ⟨1, 0.671, 0.569⟩, outsideColor := ⟨0.235, 0.439, 0.643⟩,
    shape := Shape.spiral, armWidth := 0, coreSize := 0.7,
    dustLanes := false, centralBlackHole := false, bulge := false, halo := false }

/-- A deterministic random stream: every draw equals 1/2. -/
noncomputable def uHalf : ℕ → ℝ := fun _ => 1 / 2

/-- Witness for C2 at the concrete scenario config and the constant 1/2
stream, particle 0. -/
theorem C2_witness :
    cfgW.shape = Shape.spiral ∧ cfgW.randomness = 0 ∧ cfgW.armWidth = 0 ∧
    cfgW.bulge = false ∧ cfgW.halo = false ∧ (0 : ℝ) ≤ cfgW.radius ∧
    0 < cfgW.count ∧ 0 ≤ uHalf (9 * 0) ∧ uHalf (9 * 0) ≤ 1 ∧
    ((generateGalaxy cfgW uHalf).1[0]? =
        some (spiralPos cfgW 0 (uHalf (9 * 0) * cfgW.radius)) ∧
      uHalf (9 * 0) * cfgW.radius ≤ cfgW.radius) := by
  have h := C2_spiral_placement cfgW uHalf rfl rfl rfl rfl rfl
    (by norm_num [cfgW]) 0 (by norm_num [cfgW]) (by norm_num [uHalf])
    (by norm_num [uHalf])
  exact ⟨rfl, rfl, rfl, rfl, rfl, by norm_num [cfgW], by norm_num [cfgW],
    by norm_num [uHalf], by norm_num [uHalf], h.1, h.2.2.2⟩

theorem genParticle_shape (p : GalaxyConfig) (s : Shape) (u : ℕ → ℝ) (k i : ℕ) :
    genParticle { p with shape := s } u k i = genParticle p u k i := rfl

theorem genFrom_shape (p : GalaxyConfig) (s : Shape) (u : ℕ → ℝ) :
    ∀ n i k, genFrom { p with shape := s } u i k n = genFrom p u i k n := by
  intro n
  induction n with
  | zero => intro i k; rfl
  | succ m ih => intro i k; simp only [genFrom_succ, genParticle_shape, ih]

/-- C3 amended: the generation loop never reads the shape field, so a config
with `shape = elliptical` is generated exactly like the same config with any
other shape — the base radius is `uniform(0,R)` (not `cbrt(uniform(0,1))·R`),
the branch angle is the deterministic `((i mod branches)/branches)·2π` (not a
uniform draw), and the spin term `radius · spin` is applied. -/
theorem C3_shape_ignored (p : GalaxyConfig) (s : Shape) (u : ℕ → ℝ) :
    generateGalaxy { p with shape := s } u = generateGalaxy p u := by
  simp only [generateGalaxy, genFrom_shape]

/-- Modelled from the spec: the elliptical base placement the spec text
describes (`radius = cbrt(uniform(0,1)) * R`, `branchAngle = uniform(0, 2π)`,
no spin term), applied to the draw `u₀` for the radius and `u₁` for the
angle.  The generation loop in the source has no such branch; this definition
exists only to compare the spec text with what the code emits. -/
noncomputable def ellipticalSpecPoint (R u₀ u₁ : ℝ) : ℝ × ℝ × ℝ :=
  (Real.cos (u₁ * (Real.pi * 2)) * (u₀ ^ ((1 : ℝ) / 3) * R),
   0,
   Real.sin (u₁ * (Real.pi * 2)) * (u₀ ^ ((1 : ℝ) / 3) * R))

/-- An elliptical-shaped configuration on which the code and the spec text
disagree. -/
noncomputable def cfgC3 : GalaxyConfig :=
  { cfgW with
    shape := Shape.elliptical
    count := 1
    branches := 1
    spin := 0
    radius := 1 }

/-- C3 counterexample: with every draw equal to 1/2, the elliptical-shaped
config `cfgC3` emits particle 0 at `(1/2, 0, 0)` — the spiral placement with
radius `u·R = 1/2` and deterministic branch angle 0 — while the placement the
claim describes would put its x coordinate at `cos(π) · cbrt(1/2) · 1 < 0`. -/
theorem C3_counterexample :
    (generateGalaxy cfgC3 uHalf).1[0]? = some (1 / 2, 0, 0) ∧
    ellipticalSpecPoint cfgC3.radius (uHalf 0) (uHalf 1) ≠ ((1 : ℝ) / 2, 0, 0) := by
  constructor
  · have hg := genFrom_getElem cfgC3 uHalf rfl rfl cfgC3.count 0 0 0
      (by norm_num [cfgC3, cfgW])
    have hpos : (generateGalaxy cfgC3 uHalf).1[0]? =
        some ((genParticle cfgC3 uHalf 0 0).1) := by
      simp only [generateGalaxy, List.getElem?_map, hg, Nat.mul_zero, Nat.add_zero,
        Option.map_some']
    rw [hpos, genParticle_clean_pos cfgC3 uHalf 0 0 rfl rfl rfl rfl]
    simp only [spiralPos, branchAngle, cfgC3, cfgW, uHalf]
    norm_num
  · intro hEq
    have hx : (ellipticalSpecPoint cfgC3.radius (uHalf 0) (uHalf 1)).1 = 1 / 2 := by
      rw [hEq]
    have hpi : (uHalf 1) * (Real.pi * 2) = Real.pi := by
      simp only [uHalf]; ring
    have hcbrt : (0 : ℝ) < (uHalf 0) ^ ((1 : ℝ) / 3) := by
      apply Real.rpow_pos_of_pos
      norm_num [uHalf]
    rw [show (ellipticalSpecPoint cfgC3.radius (uHalf 0) (uHalf 1)).1 =
        Real.cos ((uHalf 1) * (Real.pi * 2)) * ((uHalf 0) ^ ((1 : ℝ) / 3) * cfgC3.radius)
      from rfl, hpi, Real.cos_pi] at hx
    have hrad : cfgC3.radius = 1 := rfl
    rw [hrad, mul_one] at hx
    nlinarith [hcbrt, hx]

/-- A variant of the scenario config with the structural toggles switched on
and a nonzero randomness, used as a concrete input for several witnesses. -/
noncomputable def cfgR : GalaxyConfig :=
  { cfgW with
    randomness := 0.1
    dustLanes := true
    bulge := true
    halo := true }

/-- A deterministic random stream: every draw equals 0. -/
noncomputable def uZero : ℕ → ℝ := fun _ => 0

/-- C5: the halo check is evaluated after the bulge check; when both fire
(both flags set, condition draws below their thresholds) the pre-randomness
position is exactly the halo point — the bulge relocation and the base
placement are entirely overwritten in x, y and z, and eleven draws have been
consumed. -/
theorem C5_halo_overrides_bulge (p : GalaxyConfig) (u : ℕ → ℝ) (k i : ℕ)
    (hb : p.bulge = true) (hh : p.halo = true)
    (h1 : u (k + 3) < 0.1) (h2 : u (k + 7) < 0.05) :
    (preRandomPos p u k i).1 = haloPoint p u (k + 8) ∧
    (preRandomPos p u k i).2 = k + 11 := by
  have e1 : k + 3 + 4 = k + 7 := by omega
  have e2 : k + 7 + 4 = k + 11 := by omega
  have e3 : k + 7 + 1 = k + 8 := by omega
  constructor <;>
    simp [preRandomPos, bulgeStep, haloStep, hb, hh, e1, e2, e3, h1, h2]

/-- Witness for C5: both overrides fire on the all-zero stream. -/
theorem C5_witness :
    cfgR.bulge = true ∧ cfgR.halo = true ∧
    uZero (0 + 3) < 0.1 ∧ uZero (0 + 7) < 0.05 ∧
    ((preRandomPos cfgR uZero 0 0).1 = haloPoint cfgR uZero (0 + 8) ∧
      (preRandomPos cfgR uZero 0 0).2 = 0 + 11) :=
  ⟨rfl, rfl, by norm_num [uZero], by norm_num [uZero],
    C5_halo_overrides_bulge cfgR uZero 0 0 rfl rfl (by norm_num [uZero])
      (by norm_num [uZero])⟩

/-- C6: the randomness delta of each axis satisfies
`|delta| ≤ randomness * radius` whenever the power draw lies in [0,1],
`randomnessPower ≥ 1` and `randomness ≥ 0` (and the base radius is
nonnegative), since `pow(u, power) ≤ 1` there. -/
theorem C6_randomness_bound (p : GalaxyConfig) (u : ℕ → ℝ) (k : ℕ) (radius : ℝ)
    (hp : 1 ≤ p.randomnessPower) (hr : 0 ≤ p.randomness)
    (h0 : 0 ≤ u k) (h1 : u k ≤ 1) (hrad : 0 ≤ radius) :
    |randomDelta p u k radius| ≤ p.randomness * radius := by
  unfold randomDelta
  have hpow0 : 0 ≤ Real.rpow (u k) p.randomnessPower := Real.rpow_nonneg h0 _
  have hpow1 : Real.rpow (u k) p.randomnessPower ≤ 1 :=
    Real.rpow_le_one h0 h1 (le_trans zero_le_one hp)
  have hsgn : |(if u (k + 1) < 0.5 then (1 : ℝ) else -1)| = 1 := by
    split <;> simp
  rw [abs_mul, abs_mul, abs_mul, hsgn, mul_one, abs_of_nonneg hpow0,
    abs_of_nonneg hr, abs_of_nonneg hrad]
  calc Real.rpow (u k) p.randomnessPower * p.randomness * radius
      = Real.rpow (u k) p.randomnessPower * (p.randomness * radius) := by ring
    _ ≤ p.randomness * radius := mul_le_of_le_one_left (mul_nonneg hr hrad) hpow1

/-- Witness for C6 at a concrete config, stream, cursor and radius. -/
theorem C6_witness :
    (1 : ℝ) ≤ cfgR.randomnessPower ∧ (0 : ℝ) ≤ cfgR.randomness ∧
    0 ≤ uHalf 0 ∧ uHalf 0 ≤ 1 ∧ (0 : ℝ) ≤ 2 ∧
    |randomDelta cfgR uHalf 0 2| ≤ cfgR.randomness * 2 :=
  ⟨by norm_num [cfgR, cfgW], by norm_num [cfgR, cfgW], by norm_num [uHalf],
    by norm_num [uHalf], by norm_num,
    C6_randomness_bound cfgR uHalf 0 2 (by norm_num [cfgR, cfgW])
      (by norm_num [cfgR, cfgW]) (by norm_num [uHalf]) (by norm_num [uHalf])
      (by norm_num)⟩

/-- C8: dust-lane darkening never increases a color component (for a pre-dust
color with nonnegative components), and the emitted color equals the pre-dust
interpolated color exactly when `dustLanes = false`. -/
theorem C8_dust_never_brightens (p : GalaxyConfig) (i : ℕ) (radius : ℝ)
    (h1 : 0 ≤ (preDustColor p radius).r) (h2 : 0 ≤ (preDustColor p radius).g)
    (h3 : 0 ≤ (preDustColor p radius).b) :
    (particleColor p i radius).r ≤ (preDustColor p radius).r ∧
    (particleColor p i radius).g ≤ (preDustColor p radius).g ∧
    (particleColor p i radius).b ≤ (preDustColor p radius).b ∧
    (p.dustLanes = false → particleColor p i radius = preDustColor p radius) := by
  have hs1 : -1 ≤ Real.sin (branchAngle p i * (p.branches : ℝ)) :=
    Real.neg_one_le_sin _
  have hfac : 1 - dustLaneFactor p i * 0.3 ≤ 1 := by
    unfold dustLaneFactor
    nlinarith [hs1]
  cases hd : p.dustLanes with
  | false => simp [particleColor, hd]
  | true =>
    refine ⟨?_, ?_, ?_, ?_⟩
    · simpa [particleColor, hd, Color.multiplyScalar] using
        mul_le_of_le_one_right h1 hfac
    · simpa [particleColor, hd, Color.multiplyScalar] using
        mul_le_of_le_one_right h2 hfac
    · simpa [particleColor, hd, Color.multiplyScalar] using
        mul_le_of_le_one_right h3 hfac
    · exact fun hc => Bool.noConfusion hc

/-- Witness for C8 at a concrete config and radius. -/
theorem C8_witness :
    0 ≤ (preDustColor cfgR 2).r ∧ 0 ≤ (preDustColor cfgR 2).g ∧
    0 ≤ (preDustColor cfgR 2).b ∧
    ((particleColor cfgR 0 2).r ≤ (preDustColor cfgR 2).r ∧
      (particleColor cfgR 0 2).g ≤ (preDustColor cfgR 2).g ∧
      (particleColor cfgR 0 2).b ≤ (preDustColor cfgR 2).b ∧
      (cfgR.dustLanes = false → particleColor cfgR 0 2 = preDustColor cfgR 2)) :=
  ⟨by norm_num [preDustColor, Color.lerp, cfgR, cfgW],
    by norm_num [preDustColor, Color.lerp, cfgR, cfgW],
    by norm_num [preDustColor, Color.lerp, cfgR, cfgW],
    C8_dust_never_brightens cfgR 0 2
      (by norm_num [preDustColor, Color.lerp, cfgR, cfgW])
      (by norm_num [preDustColor, Color.lerp, cfgR, cfgW])
      (by norm_num [preDustColor, Color.lerp, cfgR, cfgW])⟩

/-- C9: generation is a pure function of the config and the injected random
stream — two calls with the same config and streams producing identical draws
in identical order emit identical position and color buffers. -/
theorem C9_deterministic (p : GalaxyConfig) (u v : ℕ → ℝ)
    (h : ∀ n, u n = v n) : generateGalaxy p u = generateGalaxy p v := by
  rw [funext h]

/-- Witness for C9 at a concrete config and stream. -/
theorem C9_witness :
    (∀ n, uHalf n = uHalf n) ∧
      generateGalaxy cfgW uHalf = generateGalaxy cfgW uHalf :=
  ⟨fun _ => rfl, C9_deterministic cfgW uHalf uHalf fun _ => rfl⟩

/-- C10: for `branches ≥ 1` the dust-lane term is the constant 1/2 — the
argument `branchAngle · branches` is the integer multiple `2π · (i mod
branches)` of 2π, whose sine is 0 in exact real arithmetic — so with
`dustLanes` enabled every particle is darkened by the same factor
`1 - 0.5 · 0.3 = 0.85`, uniformly rather than in bands. -/
theorem C10_uniform_dust (p : GalaxyConfig) (i : ℕ) (radius : ℝ)
    (hbr : 1 ≤ p.branches) (hd : p.dustLanes = true) :
    dustLaneFactor p i = 0.5 ∧
    particleColor p i radius = (preDustColor p radius).multiplyScalar 0.85 := by
  have hb0 : (p.branches : ℝ) ≠ 0 := Nat.cast_ne_zero.mpr (by omega)
  have key : branchAngle p i * (p.branches : ℝ) =
      ((2 * (i % p.branches) : ℕ) : ℝ) * Real.pi := by
    unfold branchAngle
    push_cast
    field_simp
    ring
  have hsin : Real.sin (branchAngle p i * (p.branches : ℝ)) = 0 := by
    rw [key, Real.sin_nat_mul_pi]
  have hfac : dustLaneFactor p i = 0.5 := by
    unfold dustLaneFactor
    rw [hsin]
    norm_num
  refine ⟨hfac, ?_⟩
  have hscal : (1 : ℝ) - dustLaneFactor p i * 0.3 = 0.85 := by
    rw [hfac]; norm_num
  simp [particleColor, hd, hscal]

/-- Witness for C10 at a concrete config. -/
theorem C10_witness :
    1 ≤ cfgR.branches ∧ cfgR.dustLanes = true ∧
    (dustLaneFactor cfgR 0 = 0.5 ∧
      particleColor cfgR 0 2 = (preDustColor cfgR 2).multiplyScalar 0.85) :=
  ⟨by norm_num [cfgR, cfgW], rfl,
    C10_uniform_dust cfgR 0 2 (by norm_num [cfgR, cfgW]) rfl⟩

/-- C4 amended: the halo relocation satisfies the claimed bound — its
distance from the origin is at most `1.5·R` — but the bulge relocation does
not always fit within `0.2·R`: its XZ distance is at most `0.2·R`, while its
3D distance is only bounded by `(√17/20)·R ≈ 0.206·R` because of the y
offset of up to a quarter of the bulge radius. -/
theorem C4_relocation_bounds (p : GalaxyConfig) (u : ℕ → ℝ) (k : ℕ)
    (hR : 0 ≤ p.radius)
    (h0 : 0 ≤ u k) (h1 : u k ≤ 1) (h2 : 0 ≤ u (k + 2)) (h3 : u (k + 2) ≤ 1) :
    Real.sqrt ((bulgePoint p u k).1 ^ 2 + ((bulgePoint p u k).2).1 ^ 2 +
        ((bulgePoint p u k).2).2 ^ 2) ≤ Real.sqrt 17 / 20 * p.radius ∧
    Real.sqrt ((bulgePoint p u k).1 ^ 2 + ((bulgePoint p u k).2).2 ^ 2) ≤
      0.2 * p.radius ∧
    Real.sqrt ((haloPoint p u k).1 ^ 2 + ((haloPoint p u k).2).1 ^ 2 +
        ((haloPoint p u k).2).2 ^ 2) ≤ 1.5 * p.radius := by
  have hbr0 : 0 ≤ u k * p.radius * 0.2 := by
    have := mul_nonneg h0 hR
    nlinarith
  have hbrR : u k * p.radius * 0.2 ≤ 0.2 * p.radius := by
    have := mul_le_of_le_one_left hR h1
    nlinarith
  have hsa := Real.sin_sq_add_cos_sq (u (k + 1) * Real.pi * 2)
  have hsb := Real.sin_sq_add_cos_sq (u (k + 2) * Real.pi * 2)
  refine ⟨?_, ?_, ?_⟩
  · have h17 : Real.sqrt 17 ^ 2 = 17 := Real.sq_sqrt (by norm_num)
    have hT0 : 0 ≤ Real.sqrt 17 / 20 * p.radius := by
      have := Real.sqrt_nonneg (17 : ℝ)
      positivity
    have hd2 : (u (k + 2) - 0.5) ^ 2 ≤ 0.25 := by nlinarith
    have hbr2 : (u k * p.radius * 0.2) ^ 2 ≤ 0.04 * p.radius ^ 2 := by
      nlinarith [pow_le_pow_left₀ hbr0 hbrR 2]
    have hy : (u (k + 2) - 0.5) ^ 2 * (u k * p.radius * 0.2) ^ 2 ≤
        0.25 * (u k * p.radius * 0.2) ^ 2 :=
      mul_le_mul_of_nonneg_right hd2 (sq_nonneg _)
    have hsum : (bulgePoint p u k).1 ^ 2 + ((bulgePoint p u k).2).1 ^ 2 +
        ((bulgePoint p u k).2).2 ^ 2 ≤ (Real.sqrt 17 / 20 * p.radius) ^ 2 := by
      simp only [bulgePoint]
      have expand : (Real.cos (u (k + 1) * Real.pi * 2) * (u k * p.radius * 0.2)) ^ 2 +
          ((u (k + 2) - 0.5) * (u k * p.radius * 0.2) * 0.5) ^ 2 +
          (Real.sin (u (k + 1) * Real.pi * 2) * (u k * p.radius * 0.2)) ^ 2 =
          (Real.sin (u (k + 1) * Real.pi * 2) ^ 2 +
              Real.cos (u (k + 1) * Real.pi * 2) ^ 2) * (u k * p.radius * 0.2) ^ 2 +
            (u (k + 2) - 0.5) ^ 2 * (u k * p.radius * 0.2) ^ 2 * 0.25 := by ring
      rw [expand, hsa]
      have hrhs : (Real.sqrt 17 / 20 * p.radius) ^ 2 = 17 / 400 * p.radius ^ 2 := by
        have hexp : (Real.sqrt 17 / 20 * p.radius) ^ 2 =
            Real.sqrt 17 ^ 2 * p.radius ^ 2 / 400 := by ring
        rw [hexp, h17]
        ring
      rw [hrhs]
      linarith
    calc Real.sqrt ((bulgePoint p u k).1 ^ 2 + ((bulgePoint p u k).2).1 ^ 2 +
            ((bulgePoint p u k).2).2 ^ 2)
        ≤ Real.sqrt ((Real.sqrt 17 / 20 * p.radius) ^ 2) := Real.sqrt_le_sqrt hsum
      _ = Real.sqrt 17 / 20 * p.radius := Real.sqrt_sq hT0
  · have key : (bulgePoint p u k).1 ^ 2 + ((bulgePoint p u k).2).2 ^ 2 =
        (u k * p.radius * 0.2) ^ 2 := by
      simp only [bulgePoint]
      linear_combination (u k * p.radius * 0.2) ^ 2 * hsa
    rw [key, Real.sqrt_sq hbr0]
    exact hbrR
  · have hhr0 : 0 ≤ u k * p.radius * 1.5 := by
      have := mul_nonneg h0 hR
      nlinarith
    have hhrR : u k * p.radius * 1.5 ≤ 1.5 * p.radius := by
      have := mul_le_of_le_one_left hR h1
      nlinarith
    have key : (haloPoint p u k).1 ^ 2 + ((haloPoint p u k).2).1 ^ 2 +
        ((haloPoint p u k).2).2 ^ 2 = (u k * p.radius * 1.5) ^ 2 := by
      simp only [haloPoint]
      linear_combination
        (u k * p.radius * 1.5) ^ 2 * Real.sin (u (k + 1) * Real.pi * 2) ^ 2 * hsb +
          (u k * p.radius * 1.5) ^ 2 * hsa
    rw [key, Real.sqrt_sq hhr0]
    exact hhrR

/-- A bulge-enabled config of unit radius for the C4 counterexample. -/
noncomputable def cfgC4 : GalaxyConfig :=
  { cfgW with
    bulge := true
    radius := 1
    branches := 1 }

/-- The stream for the C4 counterexample: the bulge radius draw (index 4) is
49/50, every other draw is 0 — so the bulge fires and relocates the particle
almost to the rim of the bulge sphere with the largest possible y offset. -/
noncomputable def uC4 : ℕ → ℝ := fun n => if n = 4 then 49 / 50 else 0

/-- C4 counterexample: on `cfgC4` with stream `uC4` the bulge override fires
(and the halo flag is off), yet the relocated pre-randomness point
`(49/250, -49/1000, 0)` has distance `√(40817/1000000) ≈ 0.202` from the
origin, which exceeds `0.2 · R = 0.2`. -/
theorem C4_counterexample :
    cfgC4.bulge = true ∧ cfgC4.halo = false ∧ uC4 3 < 0.1 ∧
    (preRandomPos cfgC4 uC4 0 0).1 = (49 / 250, -(49 / 1000), 0) ∧
    Real.sqrt ((49 / 250 : ℝ) ^ 2 + (-(49 / 1000) : ℝ) ^ 2 + (0 : ℝ) ^ 2) >
      0.2 * cfgC4.radius := by
  refine ⟨rfl, rfl, by norm_num [uC4], ?_, ?_⟩
  · norm_num [preRandomPos, bulgeStep, haloStep, bulgePoint, armJitter,
      spiralPos, branchAngle, cfgC4, cfgW, uC4]
  · rw [gt_iff_lt, Real.lt_sqrt (by norm_num [cfgC4, cfgW])]
    norm_num [cfgC4, cfgW]

/-- Witness for C4 at a concrete config, stream and cursor. -/
theorem C4_witness :
    (0 : ℝ) ≤ cfgW.radius ∧ 0 ≤ uHalf 0 ∧ uHalf 0 ≤ 1 ∧
    0 ≤ uHalf 2 ∧ uHalf 2 ≤ 1 ∧
    (Real.sqrt ((bulgePoint cfgW uHalf 0).1 ^ 2 +
          ((bulgePoint cfgW uHalf 0).2).1 ^ 2 +
          ((bulgePoint cfgW uHalf 0).2).2 ^ 2) ≤ Real.sqrt 17 / 20 * cfgW.radius ∧
      Real.sqrt ((bulgePoint cfgW uHalf 0).1 ^ 2 +
          ((bulgePoint cfgW uHalf 0).2).2 ^ 2) ≤ 0.2 * cfgW.radius ∧
      Real.sqrt ((haloPoint cfgW uHalf 0).1 ^ 2 +
          ((haloPoint cfgW uHalf 0).2).1 ^ 2 +
          ((haloPoint cfgW uHalf 0).2).2 ^ 2) ≤ 1.5 * cfgW.radius) :=
  ⟨by norm_num [cfgW], by norm_num [uHalf], by norm_num [uHalf],
    by norm_num [uHalf], by norm_num [uHalf],
    C4_relocation_bounds cfgW uHalf 0 (by norm_num [cfgW]) (by norm_num [uHalf])
      (by norm_num [uHalf]) (by norm_num [uHalf]) (by norm_num [uHalf])⟩

/-- C7: for every particle of a spiral config the emitted color before
dust-lane darkening (`dustLanes = false`, under which the emitted color is
the pre-darkening color) is exactly the componentwise linear interpolation of
insideColor toward outsideColor at `t = radius / R`, where `radius = u k · R`
is the radius draw of the particle whose draws start at cursor `k` — for any
bulge and halo flags, since the color never depends on the position
overrides. -/
theorem C7_color_interpolation (p : GalaxyConfig) (u : ℕ → ℝ)
    (_hshape : p.shape = Shape.spiral) (hdust : p.dustLanes = false)
    (k i : ℕ) :
    (genParticle p u k i).2.1 =
      Color.lerp p.insideColor p.outsideColor (u k * p.radius / p.radius) := by
  simp [genParticle, particleColor, hdust, preDustColor]

/-- A spiral config with both structural overrides on but dust lanes off —
the source defaults apart from dust lanes. -/
noncomputable def cfgC7 : GalaxyConfig :=
  { cfgW with
    bulge := true
    halo := true }

/-- Witness for C7 at a spiral config with bulge and halo enabled, constant
1/2 stream, particle 0 at cursor 0. -/
theorem C7_witness :
    cfgC7.shape = Shape.spiral ∧ cfgC7.dustLanes = false ∧
    (genParticle cfgC7 uHalf 0 0).2.1 =
      Color.lerp cfgC7.insideColor cfgC7.outsideColor
        (uHalf 0 * cfgC7.radius / cfgC7.radius) :=
  ⟨rfl, rfl, C7_color_interpolation cfgC7 uHalf rfl rfl 0 0⟩

end Galaxy
